import Mathlib

/-!
Verification of the adaptive challenge-difficulty core of the jump-rope
coaching bot (`Jumpropebot.py`).  The Python source is shallowly embedded:
pure logic becomes Lean functions, database state becomes explicit record
passing, Python exceptions become `Except`, and calendar dates become day
ordinals in `ℤ` (the source compares `"%Y-%m-%d"` strings for equality and
subtracts parsed dates to obtain whole-day differences, which is exactly
integer equality and subtraction on day ordinals).
-/

namespace Jumpropebot

/-! ## Difficulty Adjuster (source: `generate_challenge_with_ai`, rate analysis)

The source computes
  `success_rate = success_count / delivery_count` (0 when `delivery_count == 0`)
  `difficulty_rate = difficulty_count / delivery_count` (0 when it is 0)
and then, only when `delivery_count >= 2`, selects one of four adjustment
instructions by an ordered if/elif chain; otherwise the adjustment string
stays empty (no signal).  Division is modelled exactly in `ℚ`. -/

/-- The qualitative directive encoded by the adjustment strings of the
source: `escalate` (raise difficulty), `deEscalate` (lower 1–2 steps),
`hold` (keep level, vary), `holdVary` (middle case, soften), and
`insufficient` for the empty adjustment when `delivery_count < 2`. -/
inductive Directive where
  | escalate
  | deEscalate
  | hold
  | holdVary
  | insufficient
  deriving DecidableEq, Repr

/-- `success_rate` as computed in `generate_challenge_with_ai`:
`success_count / delivery_count`, and `0` when `delivery_count == 0`. -/
def success_rate (delivery_count success_count : ℕ) : ℚ :=
  if delivery_count = 0 then 0 else (success_count : ℚ) / (delivery_count : ℚ)

/-- `difficulty_rate` as computed in `generate_challenge_with_ai`:
`difficulty_count / delivery_count`, and `0` when `delivery_count == 0`. -/
def difficulty_rate (delivery_count difficulty_count : ℕ) : ℚ :=
  if delivery_count = 0 then 0 else (difficulty_count : ℚ) / (delivery_count : ℚ)

/-- The adjustment chain of `generate_challenge_with_ai` (lines 658–667):
evaluated only when `delivery_count >= 2`; the branch order and thresholds
(`> 0.7`, `> 0.6`, `> 0.4` with `<= 0.4`) follow the source verbatim. -/
def adjustment (delivery_count success_count difficulty_count : ℕ) : Directive :=
  if 2 ≤ delivery_count then
    if success_rate delivery_count success_count > 7/10 then .escalate
    else if difficulty_rate delivery_count difficulty_count > 6/10 then .deEscalate
    else if success_rate delivery_count success_count > 4/10 ∧
            difficulty_rate delivery_count difficulty_count ≤ 4/10 then .hold
    else .holdVary
  else .insufficient

/-! ## Streak Tracker (source: `update_streak`)

State read from the row: `streak_days` and `last_challenge_date`.  The
function returns the (possibly unchanged) streak; when it does not take the
same-day short-circuit it persists the new streak together with
`last_challenge_date = today`.  The persisted write is modelled as an
`Option`: `none` means no `update` call was issued. -/

/-- Result of one `update_streak` call: the returned streak and the row
write it performs (`none` when the same-day branch returns early and
nothing is persisted). -/
structure StreakResult where
  ret : ℕ
  write : Option (ℕ × ℤ)
  deriving DecidableEq, Repr

/-- `update_streak` (lines 223–266) with the database row passed
explicitly: `today` is the current day ordinal, `lastDate` the stored
`last_challenge_date` (`None` for a fresh row), `priorStreak` the stored
`streak_days`.  Branches mirror the source: same day → return unchanged
without writing; otherwise a gap of exactly one day increments, any other
gap (including a future `lastDate`) resets to 1; both persist
`(streak, today)`. -/
def update_streak (today : ℤ) (lastDate : Option ℤ) (priorStreak : ℕ) :
    StreakResult :=
  match lastDate with
  | some d =>
      if d = today then
        ⟨priorStreak, none⟩
      else if today - d = 1 then
        ⟨priorStreak + 1, some (priorStreak + 1, today)⟩
      else
        ⟨1, some (1, today)⟩
  | none => ⟨1, some (1, today)⟩

/-! ## Milestone Detector (source: `generate_challenge_with_ai`, special day)

`is_special_day = streak_days > 0 and streak_days % 10 == 0 and
streak_days <= 100`; when it holds, the `special_challenges` literal dict is
consulted and, when the key is present, milestone text is appended. -/

/-- One entry of the `special_challenges` dict: target duration, target
score, and the accompanying message. -/
structure MilestoneInfo where
  duration : String
  target : String
  message : String
  deriving DecidableEq, Repr

/-- `is_special_day` (line 670). -/
def is_special_day (streak_days : ℕ) : Bool :=
  0 < streak_days && streak_days % 10 == 0 && streak_days ≤ 100

/-- The `special_challenges` dict literal (lines 728–779), keyed by
`streak_days`. -/
def special_challenges (streak_days : ℕ) : Option MilestoneInfo :=
  if streak_days = 10 then some ⟨"15秒", "3点超え", "まずは15秒のフリースタイルを作ってみよう！"⟩
  else if streak_days = 20 then some ⟨"30秒", "5点超え", "少し長めの30秒に挑戦！技のバリエーションを増やそう！"⟩
  else if streak_days = 30 then some ⟨"30秒", "6点超え", "30秒で6点を目指そう！質を意識して！"⟩
  else if streak_days = 40 then some ⟨"45秒", "7点超え", "45秒のフリースタイル！構成力が試されるよ！"⟩
  else if streak_days = 50 then some ⟨"60秒", "8点超え", "1分間のフリースタイル！スタミナと技術の両立！"⟩
  else if streak_days = 60 then some ⟨"60秒", "9点超え", "1分で9点！大会レベルに近づいてきた！"⟩
  else if streak_days = 70 then some ⟨"75秒", "9点超え", "ついに大会と同じ75秒！本番さながらの緊張感を！"⟩
  else if streak_days = 80 then some ⟨"75秒", "9.5点超え", "75秒で9.5点！完成度を極めよう！"⟩
  else if streak_days = 90 then some ⟨"75秒", "10点超え", "10点の壁に挑戦！完璧な演技を目指して！"⟩
  else if streak_days = 100 then some ⟨"75秒", "10点超え", "🎊100日達成おめでとう！！🎊 最高峰の演技で有終の美を飾ろう！"⟩
  else none

/-- The milestone check as the generation path performs it: the table is
consulted (and its text appended) exactly when `is_special_day` holds and
the dict has the key (lines 727, 781–792). -/
def checkMilestone (streak_days : ℕ) : Option MilestoneInfo :=
  if is_special_day streak_days then special_challenges streak_days else none

/-! ## Daily on-demand cap (source: `handle_message`, the 「今すぐ」 branch)

The row fields `immediate_request_count` / `last_immediate_request_date`
form a per-user state.  On each on-demand request the source reads them,
persists a reset row when the stored date is not today, denies when the
(post-reset) count is already 3, and otherwise persists the incremented
count and composes a challenge.  Dates are kept as strings, compared with
`!=` exactly as the source does. -/

/-- The persisted daily-cap state of one user. -/
structure ImmediateState where
  count : ℕ
  date : Option String
  deriving DecidableEq, Repr

/-- Reply of one on-demand request: a composed challenge or the normal
denial message (not an error path). -/
inductive ImmediateReply where
  | challenge
  | denial
  deriving DecidableEq, Repr

/-- One 「今すぐ」 request (lines 2326–2365): reset the stored counter when
the stored date differs from today, deny at 3, otherwise increment and
serve. -/
def immediate_step (s : ImmediateState) (today : String) :
    ImmediateState × ImmediateReply :=
  let s1 := if s.date = some today then s else ⟨0, some today⟩
  if 3 ≤ s1.count then (s1, .denial)
  else (⟨s1.count + 1, some today⟩, .challenge)

/-- A sequence of `n` on-demand requests by one user on one day. -/
def run_requests (s : ImmediateState) (today : String) :
    ℕ → ImmediateState × List ImmediateReply
  | 0 => (s, [])
  | n + 1 =>
      let p := immediate_step s today
      let q := run_requests p.1 today n
      (q.1, p.2 :: q.2)

/-! ## Assignment and feedback counters (source: `increment_delivery_count`,
`record_feedback`, `handle_message`)

`increment_delivery_count` adds one to `delivery_count` per challenge
issued; `record_feedback` adds one to `success_count` or
`difficulty_count` per feedback message.  Nothing in `handle_message`
gates a feedback message on a prior assignment: the feedback keywords are
exempted from the first-time welcome branch (line 2274), so a fresh user
may send feedback before any challenge was delivered. -/

/-- Counter mutations a user can trigger on their own record. -/
inductive UserOp where
  | assign
  | feedback_success
  | feedback_difficulty
  deriving DecidableEq, Repr

/-- The three counters of a user row that the operations touch. -/
structure Counters where
  delivery_count : ℕ
  success_count : ℕ
  difficulty_count : ℕ
  deriving DecidableEq, Repr

/-- A fresh row as created by the lazy upsert: all counters zero. -/
def fresh_record : Counters := ⟨0, 0, 0⟩

/-- One operation applied to the row: `increment_delivery_count` and the
two branches of `record_feedback`, each a plain `+ 1`. -/
def apply_op (r : Counters) : UserOp → Counters
  | .assign => { r with delivery_count := r.delivery_count + 1 }
  | .feedback_success => { r with success_count := r.success_count + 1 }
  | .feedback_difficulty => { r with difficulty_count := r.difficulty_count + 1 }

/-- The row reached from `r` after a sequence of operations. -/
def run_ops (r : Counters) (ops : List UserOp) : Counters :=
  ops.foldl apply_op r

/-! ## Coach-personality tables

Every personality-keyed dict in the source is read through `.get` with the
優しい (Gentle) entry as the default, so each lookup is a total function of
the tone string. -/

/-- The five recognized coach personalities (`COACH_PERSONALITIES`,
line 65). -/
def known_tones : List String := ["熱血", "優しい", "厳しい", "フレンドリー", "冷静"]

/-- The four recognized levels (keys of `USER_LEVELS` and of
`level_guidelines`). -/
def known_levels : List String := ["初心者", "中級者", "上級者", "超上級者"]

/-- One entry of `personality_styles`: the tone instructions and the sample
line interpolated into the prompts. -/
structure PersonalityStyle where
  tone : String
  sampleLine : String
  deriving DecidableEq, Repr

/-- `personality_styles.get(coach_personality, personality_styles["優しい"])`
(lines 333–356). -/
def personality_style (p : String) : PersonalityStyle :=
  if p = "熱血" then
    ⟨"熱く励ます。「！」「💪」「🔥」を多用。「お前」「やってやろうぜ」「絶対いけるぞ」などの表現",
     "よっしゃ！今日も全力でいくぞ！🔥"⟩
  else if p = "優しい" then
    ⟨"丁寧で優しく。「ですます調」。「ゆっくりでいいよ」「無理しないでね」などの配慮",
     "今日も無理せず、楽しく練習しましょうね😊"⟩
  else if p = "厳しい" then
    ⟨"短く厳格に。「だ・である調」。「妥協するな」「できて当然」などの厳しさ",
     "甘えは許さん。やるからには本気でやれ"⟩
  else if p = "フレンドリー" then
    ⟨"タメ口で親しみやすく。「！」を適度に。「いこ！」「やろ！」「一緒に頑張ろ」",
     "今日も一緒に楽しく練習しよ！😊"⟩
  else if p = "冷静" then
    ⟨"論理的で分析的。「です・ます調」。「データ的に」「効率的に」などの客観的表現",
     "本日の課題を論理的に設計しました"⟩
  else
    ⟨"丁寧で優しく。「ですます調」。「ゆっくりでいいよ」「無理しないでね」などの配慮",
     "今日も無理せず、楽しく練習しましょうね😊"⟩

/-- The `system_prompt` f-string of `generate_challenge_with_ai`
(lines 358–380): the raw `coach_personality` string is interpolated twice,
and the looked-up style's tone and sample line once each. -/
def system_prompt (coach_personality : String) : String :=
  "あなたは縄跳びフリースタイル競技のAIコーチです。\n実際の競技で使われる技名を使って、具体的な練習課題を出します。\n\n【重要】あなたのコーチとしての性格は「"
  ++ coach_personality
  ++ "」です。\nこの性格を絶対に守ってください。他の性格に変わってはいけません。\n\n【"
  ++ coach_personality
  ++ "コーチの口調と特徴】\n"
  ++ (personality_style coach_personality).tone
  ++ "\n例: "
  ++ (personality_style coach_personality).sampleLine
  ++ "\n\n【重要な禁止事項】\n- 「フロー」「リカバリー」「クリーンフィニッシュ」という言葉は存在しないので絶対に使わない\n- 抽象的な表現は一切使わない\n- 必ず具体的な技名を使う\n- 指定された性格以外の口調は絶対に使わない\n\n【課題設計の原則】\n- 毎日3〜10分で完結する内容\n- 成功条件を明確にする（回数・秒数など）\n- 技の組み合わせパターンを工夫する\n- 前回と違う課題を出す\n- 段階的な難度上昇を意識する（「できた」の数が増えれば文字数の長い技を少し増やすなど）\n- 技だけでなく、アドバイスや励まし、応援のメッセージも入れる"

/-- `fallback_by_personality` with both `.get` defaults applied
(lines 798–831): unknown tone falls back to the 優しい row, unknown level
to that row's 初心者 entry. -/
def fallback_by_personality (tone level : String) : String :=
  if tone = "熱血" then
    if level = "初心者" then "今日のお題：\n三重とび3回連続！\n\n絶対いけるぞ！お前の力を信じてる！💪🔥"
    else if level = "中級者" then "今日のお題：\nEBTJ → KNTJ！\n\nやってやろうぜ！全力でぶつかれ！🔥"
    else if level = "上級者" then "今日のお題：\nSOOAS → SOOCL！\n\nお前ならできる！限界突破だ！✨💪"
    else if level = "超上級者" then "今日のお題：\nEBTJOO → KNTJCL！\n\nお前の限界はここじゃないぞ！🔥💪"
    else "今日のお題：\n三重とび3回連続！\n\n絶対いけるぞ！お前の力を信じてる！💪🔥"
  else if tone = "厳しい" then
    if level = "初心者" then "今日のお題：\n三重とび5回連続。\n\nできて当然だ。甘えるな。"
    else if level = "中級者" then "今日のお題：\nKNTJ → インバースKNTJ。\n\n妥協するな。完璧を目指せ。"
    else if level = "上級者" then "今日のお題：\nSOOAS → SOOTS。\n\nできるまでやれ。結果が全てだ。"
    else if level = "超上級者" then "今日のお題：\nEBTJOO → KNTJCL。\n\n限界を超えろ。それがお前の仕事だ。"
    else "今日のお題：\n三重とび5回連続。\n\nできて当然だ。甘えるな。"
  else if tone = "フレンドリー" then
    if level = "初心者" then "今日のお題：\n三重とび3回連続いってみよ！\n\n楽しくやろ！一緒に頑張ろ！✨😊"
    else if level = "中級者" then "今日のお題：\nEBTJ → KNTJ やろ！\n\n一緒に頑張ろ！絶対できるって！💪"
    else if level = "上級者" then "今日のお題：\nSOOASいい感じで決めちゃお！\n\nお前ならいけるって！信じてる！🔥"
    else if level = "超上級者" then "今日のお題：\nEBTJOO → KNTJCL！\n\n一緒にガチでやろ！絶対いけるって！🔥"
    else "今日のお題：\n三重とび3回連続いってみよ！\n\n楽しくやろ！一緒に頑張ろ！✨😊"
  else if tone = "冷静" then
    if level = "初心者" then "今日のお題：\n三重とび3回。\n\n安定性を重視して、効率的な動作を心がけてください。"
    else if level = "中級者" then "今日のお題：\nEBTJ 5回。\n\n動作の効率性を分析しながら練習してください。"
    else if level = "上級者" then "今日のお題：\nSOOAS 1回。\n\n質を分析し、データ的に最適な動作を目指してください。"
    else if level = "超上級者" then "今日のお題：\nEBTJOO 1回。\n\n動作を論理的に分析し、効率的な練習を継続してください。"
    else "今日のお題：\n三重とび3回。\n\n安定性を重視して、効率的な動作を心がけてください。"
  else
    if level = "初心者" then "今日のお題：\n三重とびを3回連続。\n\nゆっくりでいいので、焦らず練習しましょうね😊"
    else if level = "中級者" then "今日のお題：\nEBTJを5回。\n\n無理しないでくださいね。少しずつ上達していきましょう💪"
    else if level = "上級者" then "今日のお題：\nSOOASを1回。\n\n質を大切に、丁寧に練習してみてください✨"
    else if level = "超上級者" then "今日のお題：\nEBTJOOを1回。\n\n焦らず、丁寧に練習しましょうね✨"
    else "今日のお題：\n三重とびを3回連続。\n\nゆっくりでいいので、焦らず練習しましょうね😊"

/-- The 20 static fallback strings of the `fallback_by_personality` dict
literal, as a fixed table. -/
def fallback_messages : List String :=
  [fallback_by_personality "熱血" "初心者", fallback_by_personality "熱血" "中級者",
   fallback_by_personality "熱血" "上級者", fallback_by_personality "熱血" "超上級者",
   fallback_by_personality "優しい" "初心者", fallback_by_personality "優しい" "中級者",
   fallback_by_personality "優しい" "上級者", fallback_by_personality "優しい" "超上級者",
   fallback_by_personality "厳しい" "初心者", fallback_by_personality "厳しい" "中級者",
   fallback_by_personality "厳しい" "上級者", fallback_by_personality "厳しい" "超上級者",
   fallback_by_personality "フレンドリー" "初心者", fallback_by_personality "フレンドリー" "中級者",
   fallback_by_personality "フレンドリー" "上級者", fallback_by_personality "フレンドリー" "超上級者",
   fallback_by_personality "冷静" "初心者", fallback_by_personality "冷静" "中級者",
   fallback_by_personality "冷静" "上級者", fallback_by_personality "冷静" "超上級者"]

/-- `praise_by_personality.get(personality, praise_by_personality["優しい"])`
(lines 2398–2405), the reply to a success feedback message. -/
def praise_by_personality (p : String) : String :=
  if p = "熱血" then "素晴らしい！！その調子だ！🔥 次回はもっと難しい技にチャレンジだ！💪"
  else if p = "優しい" then "素晴らしい！💪 次回の課題で少しレベルアップしますね。無理せず頑張りましょう✨"
  else if p = "厳しい" then "まだまだこれからだ。次はもっと高みを目指せ。"
  else if p = "フレンドリー" then "やばい！すごいじゃん！✨ 次もこの調子でいこ！一緒に頑張ろ！"
  else if p = "冷静" then "データ的に良好です。次回は難度を0.2段階上げます。継続してください。"
  else "素晴らしい！💪 次回の課題で少しレベルアップしますね。無理せず頑張りましょう✨"

/-- `encouragement_by_personality.get(personality, ...["優しい"])`
(lines 2416–2423), the reply to a difficulty feedback message. -/
def encouragement_by_personality (p : String) : String :=
  if p = "熱血" then "大丈夫だ！お前ならできる！🔥 次回は少し軽めにするから、絶対いけるぞ！💪"
  else if p = "優しい" then "大丈夫！次回は少し軽めの課題にしますね。焦らず続けましょう🙌 ゆっくりでいいからね"
  else if p = "厳しい" then "できなかったか。次回は少し戻すが、すぐにまた挑戦してもらう。諦めるな。"
  else if p = "フレンドリー" then "大丈夫大丈夫！次は少し軽くするね。焦らずいこ！一緒に頑張ろ😊"
  else if p = "冷静" then "難度設定を調整します。次回は0.3段階下げて再トライしてください。"
  else "大丈夫！次回は少し軽めの課題にしますね。焦らず続けましょう🙌 ゆっくりでいいからね"

/-! ## Challenge generation and orchestration

`generate_challenge_with_ai` builds the prompts (raising a `KeyError` when
the level is not a `level_guidelines` key, since the subscript on line 693
precedes the guarded API call), calls the text-generation collaborator
inside a `try`, appends the milestone text on success, and substitutes the
static fallback on any collaborator error.  The collaborator's outcome is
passed in as an `Except` value. -/

/-- The milestone text appended to a successful generation (lines 781–792),
empty when no milestone fires. -/
def milestone_suffix (streak_days : ℕ) : String :=
  match checkMilestone streak_days with
  | some info =>
      "\n\n🎉 連続記録" ++ toString streak_days
      ++ "日目達成！特別課題！\n📊 採点アプリで挑戦！\n→ 採点アプリ: https://jumprope-scorer.netlify.app\n→ 使い方: https://official-jumprope-scorer.netlify.app\n\n【今回の課題】\n"
      ++ info.duration ++ "のフリースタイルを作って最終得点" ++ info.target
      ++ "を目指そう！\n（プレゼンテーションは0.6、ミスとリクワイヤードエレメンツの減点も含む）\n\n💬 "
      ++ info.message
  | none => ""

/-- `generate_challenge_with_ai` (lines 330–831) with the collaborator
outcome explicit.  An unknown level raises (`level_guidelines[level]`,
line 693, is outside the `try`); a collaborator error is caught and the
static fallback keyed by (tone, level) is returned; a collaborator reply
gets the milestone suffix appended. -/
def generate_challenge_with_ai (level tone : String) (streak_days : ℕ)
    (genResult : Except String String) : Except String String :=
  if level ∈ known_levels then
    match genResult with
    | .ok t => .ok (t ++ milestone_suffix streak_days)
    | .error _ => .ok (fallback_by_personality tone level)
  else .error "KeyError: level"

/-- The user-settings fields the orchestrator reads. -/
structure UserSettings where
  level : String
  coach_personality : String
  deriving DecidableEq, Repr

/-- The fixed static message of `create_challenge_message`'s `except`
branch (line 850). -/
def static_fallback_message : String := "今日のお題：\n前とび30秒を安定させてみよう！"

/-- The body of `create_challenge_message`'s `try` block (lines 836–847):
read settings, update the streak, generate, increment the delivery count,
return the challenge.  Each internal step is passed in as an `Except`
value so that a raising step aborts the pipeline. -/
def challenge_pipeline (settingsR : Except String UserSettings)
    (streakR : Except String ℕ)
    (genR : String → String → ℕ → Except String String)
    (incrR : String → Except String Unit)
    (level : String) : Except String String := do
  let s ← settingsR
  let streak ← streakR
  let c ← genR level s.coach_personality streak
  let _ ← incrR c
  pure c

/-- `create_challenge_message` (lines 834–850): the `try` body, with any
raised exception caught and replaced by the fixed static message. -/
def create_challenge_message (settingsR : Except String UserSettings)
    (streakR : Except String ℕ)
    (genR : String → String → ℕ → Except String String)
    (incrR : String → Except String Unit)
    (level : String) : String :=
  match challenge_pipeline settingsR streakR genR incrR level with
  | .ok c => c
  | .error _ => static_fallback_message

/-! ## Move-Grammar Validator (spec §4.4) -/

/-- The move categories of the per-tier grammar. -/
inductive MoveCategory where
  | basic
  | openCat
  | exclusive
  | specialty
  deriving DecidableEq, Repr

/-- The skill tiers. -/
inductive Tier where
  | beginner
  | intermediate
  | advanced
  | elite
  deriving DecidableEq, Repr

/-- Per-tier grammar parameters: maximum combo length and the cap on
Open-category moves. -/
structure TierGrammar where
  maxComboLength : ℕ
  openCap : ℕ
  deriving DecidableEq, Repr

/-- Modelled from the spec: the per-tier grammar table of §4.4.  The
repository carries these rules only as natural-language instructions
inside the generation prompts (lines 438–466, 518–536, 622–634), not as
executable code.  Lengths: Beginner effectively 1, Intermediate 3,
Advanced 3, Elite up to 5; Open cap 1 for Advanced and 2 for Elite, 0
below. -/
def tier_grammar : Tier → TierGrammar
  | .beginner => ⟨1, 0⟩
  | .intermediate => ⟨3, 0⟩
  | .advanced => ⟨3, 1⟩
  | .elite => ⟨5, 2⟩

/-- Modelled from the spec: `isLegalCombo(tier, sequence)` of §4.4, absent
from the code as an executable function (the rules live in prompt prose).
Checks, per the spec's contract: combo length within the tier maximum; at
most one Exclusive-category move, and none anywhere but the last position;
Open-category count within the tier cap; Specialty moves only as a
standalone single-move combo. -/
def isLegalCombo (t : Tier) (seq : List MoveCategory) : Bool :=
  decide (seq.length ≤ (tier_grammar t).maxComboLength) &&
  decide (seq.count .exclusive ≤ 1) &&
  !(seq.dropLast.any (· == .exclusive)) &&
  decide (seq.count .openCat ≤ (tier_grammar t).openCap) &&
  (!(seq.any (· == .specialty)) || seq.length == 1)

/-! ## Theorems -/

/-- Both rates are the same arithmetic expression of their two counter
arguments. -/
theorem difficulty_rate_eq_success_rate (dc c : ℕ) :
    difficulty_rate dc c = success_rate dc c := rfl

/-- With a positive denominator, comparing the success rate against a
rational threshold `p/q` from below is the cross-multiplied integer
comparison. -/
theorem success_rate_gt_iff (dc sc p q : ℕ) (hdc : 0 < dc) (hq : 0 < q) :
    ((p : ℚ) / (q : ℚ) < success_rate dc sc) ↔ p * dc < q * sc := by
  have hdc0 : dc ≠ 0 := Nat.pos_iff_ne_zero.mp hdc
  rw [success_rate, if_neg hdc0,
    div_lt_div_iff₀ (by exact_mod_cast hq) (by exact_mod_cast hdc)]
  rw [mul_comm (sc : ℚ) (q : ℚ)]
  exact_mod_cast Iff.rfl

/-- With a positive denominator, comparing the success rate against a
rational threshold `p/q` from above is the cross-multiplied integer
comparison. -/
theorem success_rate_le_iff (dc sc p q : ℕ) (hdc : 0 < dc) (hq : 0 < q) :
    (success_rate dc sc ≤ (p : ℚ) / (q : ℚ)) ↔ q * sc ≤ p * dc := by
  have hdc0 : dc ≠ 0 := Nat.pos_iff_ne_zero.mp hdc
  rw [success_rate, if_neg hdc0,
    div_le_div_iff₀ (by exact_mod_cast hdc) (by exact_mod_cast hq)]
  rw [mul_comm (sc : ℚ) (q : ℚ)]
  exact_mod_cast Iff.rfl

/-- C1: with at least two deliveries, the adjustment chain emits exactly
one directive by the ordered rule — escalate when the success rate exceeds
7/10, else de-escalate when the difficulty rate exceeds 6/10, else hold
when the success rate exceeds 4/10 while the difficulty rate stays within
4/10, else hold-with-variation; with fewer than two deliveries no
adjustment signal is produced.  The rate thresholds are stated here as the
equivalent cross-multiplied counter comparisons. -/
theorem adjustment_spec (dc sc dfc : ℕ) :
    (2 ≤ dc →
      adjustment dc sc dfc =
        if 7 * dc < 10 * sc then .escalate
        else if 6 * dc < 10 * dfc then .deEscalate
        else if 4 * dc < 10 * sc ∧ 10 * dfc ≤ 4 * dc then .hold
        else .holdVary) ∧
    (dc < 2 → adjustment dc sc dfc = .insufficient) := by
  constructor
  · intro h
    have hdc : 0 < dc := by omega
    have h1 := success_rate_gt_iff dc sc 7 10 hdc (by norm_num)
    have h2 := success_rate_gt_iff dc dfc 6 10 hdc (by norm_num)
    have h3 := success_rate_gt_iff dc sc 4 10 hdc (by norm_num)
    have h4 := success_rate_le_iff dc dfc 4 10 hdc (by norm_num)
    push_cast at h1 h2 h3 h4
    rw [adjustment, if_pos h]
    simp only [gt_iff_lt, difficulty_rate_eq_success_rate, h1, h2, h3, h4]
  · intro h
    rw [adjustment, if_neg (by omega)]

/-- Witness for C1 at a concrete history: 10 deliveries, 8 successes. -/
theorem adjustment_spec_witness :
    2 ≤ 10 ∧ adjustment 10 8 0 = .escalate := by
  refine ⟨by norm_num, ?_⟩
  have h := (adjustment_spec 10 8 0).1 (by norm_num)
  norm_num at h
  exact h

/-- C3: when the stored date is today, `update_streak` returns the prior
streak unchanged and issues no persistence write. -/
theorem update_streak_same_day (today : ℤ) (lastDate : Option ℤ)
    (priorStreak : ℕ) (h : lastDate = some today) :
    update_streak today lastDate priorStreak = ⟨priorStreak, none⟩ := by
  subst h
  simp [update_streak]

/-- Witness for C3 at day ordinal 20000 with a prior streak of 7. -/
theorem update_streak_same_day_witness :
    (some (20000 : ℤ) = some (20000 : ℤ)) ∧
    update_streak 20000 (some 20000) 7 = ⟨7, none⟩ :=
  ⟨rfl, update_streak_same_day 20000 (some 20000) 7 rfl⟩

/-- C4: when the stored date is not today, `update_streak` increments the
prior streak exactly when the stored date is the previous calendar day,
and otherwise (no stored date, a gap of more than one day, or a stored
date in the future) returns exactly 1; in all of these cases it persists
the returned streak together with today's date. -/
theorem update_streak_new_day (today : ℤ) (priorStreak : ℕ) :
    (∀ d : ℤ, today - d = 1 →
      update_streak today (some d) priorStreak =
        ⟨priorStreak + 1, some (priorStreak + 1, today)⟩) ∧
    (∀ d : ℤ, d ≠ today → today - d ≠ 1 →
      update_streak today (some d) priorStreak = ⟨1, some (1, today)⟩) ∧
    update_streak today none priorStreak = ⟨1, some (1, today)⟩ := by
  refine ⟨?_, ?_, rfl⟩
  · intro d hd
    have hne : d ≠ today := by intro he; rw [he] at hd; omega
    simp [update_streak, hne, hd]
  · intro d hne h1
    simp [update_streak, hne, h1]

/-- Witness for C4: a one-day gap increments 7 to 8; a four-day gap in the
other direction resets to 1. -/
theorem update_streak_new_day_witness :
    ((20001 : ℤ) - 20000 = 1 ∧
      update_streak 20001 (some 20000) 7 = ⟨8, some (8, 20001)⟩) ∧
    ((20005 : ℤ) ≠ 20001 ∧ (20001 : ℤ) - 20005 ≠ 1 ∧
      update_streak 20001 (some 20005) 7 = ⟨1, some (1, 20001)⟩) :=
  ⟨⟨by norm_num, (update_streak_new_day 20001 7).1 20000 (by norm_num)⟩,
   ⟨by norm_num, by norm_num,
    (update_streak_new_day 20001 7).2.1 20005 (by norm_num) (by norm_num)⟩⟩

/-- C5: the milestone check fires exactly for positive streaks divisible
by 10 and at most 100, and at 100 it resolves the capstone entry of the
lookup table; the resolution is a pure lookup, identical on every call
with the same streak. -/
theorem checkMilestone_spec (s : ℕ) :
    ((checkMilestone s).isSome ↔ (0 < s ∧ s % 10 = 0 ∧ s ≤ 100)) ∧
    checkMilestone 100 =
      some ⟨"75秒", "10点超え", "🎊100日達成おめでとう！！🎊 最高峰の演技で有終の美を飾ろう！"⟩ := by
  have key : ∀ t < 101,
      ((checkMilestone t).isSome ↔ (0 < t ∧ t % 10 = 0 ∧ t ≤ 100)) := by decide
  refine ⟨?_, by decide⟩
  by_cases h : s < 101
  · exact key s h
  · have h100 : ¬ s ≤ 100 := by omega
    have hnone : checkMilestone s = none := by
      rw [checkMilestone, if_neg]
      simp [is_special_day]
      omega
    rw [hnone]
    simp
    omega

/-- Witness for C5 at streak 50: the milestone fires. -/
theorem checkMilestone_spec_witness : (checkMilestone 50).isSome =  true :=
  ((checkMilestone_spec 50).1).mpr (by norm_num)

/-- After a sequence of operations the delivery counter equals its initial
value plus the number of assignment operations. -/
theorem run_ops_delivery (ops : List UserOp) :
    ∀ r : Counters,
      (run_ops r ops).delivery_count = r.delivery_count + ops.count .assign := by
  induction ops with
  | nil => intro r; rfl
  | cons o t ih =>
      intro r
      have hstep : run_ops r (o :: t) = run_ops (apply_op r o) t := rfl
      rw [hstep, ih, List.count_cons]
      cases o <;> (simp [apply_op, beq_iff_eq]; try omega)

/-- After a sequence of operations the success counter equals its initial
value plus the number of success-feedback operations. -/
theorem run_ops_success (ops : List UserOp) :
    ∀ r : Counters,
      (run_ops r ops).success_count =
        r.success_count + ops.count .feedback_success := by
  induction ops with
  | nil => intro r; rfl
  | cons o t ih =>
      intro r
      have hstep : run_ops r (o :: t) = run_ops (apply_op r o) t := rfl
      rw [hstep, ih, List.count_cons]
      cases o <;> (simp [apply_op, beq_iff_eq]; try omega)

/-- After a sequence of operations the difficulty counter equals its
initial value plus the number of difficulty-feedback operations. -/
theorem run_ops_difficulty (ops : List UserOp) :
    ∀ r : Counters,
      (run_ops r ops).difficulty_count =
        r.difficulty_count + ops.count .feedback_difficulty := by
  induction ops with
  | nil => intro r; rfl
  | cons o t ih =>
      intro r
      have hstep : run_ops r (o :: t) = run_ops (apply_op r o) t := rfl
      rw [hstep, ih, List.count_cons]
      cases o <;> (simp [apply_op, beq_iff_eq]; try omega)

/-- C2 counterexample: the record reached from a fresh record by a single
success-feedback operation violates
`success_count + difficulty_count ≤ delivery_count`.  This sequence is
reachable in the source: the feedback keywords are exempt from the
first-contact welcome branch (line 2274 of `handle_message`), so a fresh
user's first message 「できた」 runs `record_feedback` with
`delivery_count = 0`. -/
theorem feedback_invariant_counterexample :
    ¬ ((run_ops fresh_record [UserOp.feedback_success]).success_count +
        (run_ops fresh_record [UserOp.feedback_success]).difficulty_count ≤
        (run_ops fresh_record [UserOp.feedback_success]).delivery_count) := by
  decide

/-- C2 amended: the invariant
`success_count + difficulty_count ≤ delivery_count` holds in every record
reachable from a fresh record by assignment and feedback operations,
provided the sequence contains at most as many feedback operations as
assignment operations — a side condition the code itself does not
enforce. -/
theorem counters_invariant_amended (ops : List UserOp)
    (h : ops.count .feedback_success + ops.count .feedback_difficulty ≤
          ops.count .assign) :
    (run_ops fresh_record ops).success_count +
      (run_ops fresh_record ops).difficulty_count ≤
      (run_ops fresh_record ops).delivery_count := by
  rw [run_ops_delivery ops fresh_record, run_ops_success ops fresh_record,
    run_ops_difficulty ops fresh_record]
  simp only [fresh_record]
  omega

/-- Witness for the amended C2: one assignment followed by one success
feedback keeps the invariant. -/
theorem counters_invariant_amended_witness :
    (([UserOp.assign, UserOp.feedback_success].count UserOp.feedback_success +
      [UserOp.assign, UserOp.feedback_success].count UserOp.feedback_difficulty ≤
      [UserOp.assign, UserOp.feedback_success].count UserOp.assign) ∧
    ((run_ops fresh_record [UserOp.assign, UserOp.feedback_success]).success_count +
      (run_ops fresh_record [UserOp.assign, UserOp.feedback_success]).difficulty_count ≤
      (run_ops fresh_record [UserOp.assign, UserOp.feedback_success]).delivery_count)) :=
  ⟨by decide, counters_invariant_amended [UserOp.assign, UserOp.feedback_success] (by decide)⟩

/-- C7: for every known level and any tone, an error from the
text-generation collaborator is caught — the call returns normally — and
the returned challenge is the precomputed static fallback selected by
(tone, level), an element of the fixed 20-entry fallback table. -/
theorem generate_fallback_on_error (level tone : String) (streak_days : ℕ)
    (e : String) (hlevel : level ∈ known_levels) :
    generate_challenge_with_ai level tone streak_days (.error e) =
      .ok (fallback_by_personality tone level) ∧
    fallback_by_personality tone level ∈ fallback_messages := by
  constructor
  · simp [generate_challenge_with_ai, hlevel]
  · unfold fallback_by_personality
    split_ifs <;> decide

/-- Witness for C7: a timeout for a 中級者 user with the 熱血 coach yields
that pair's static fallback. -/
theorem generate_fallback_on_error_witness :
    "中級者" ∈ known_levels ∧
    (generate_challenge_with_ai "中級者" "熱血" 5 (.error "timeout") =
      .ok (fallback_by_personality "熱血" "中級者") ∧
     fallback_by_personality "熱血" "中級者" ∈ fallback_messages) :=
  ⟨by decide, generate_fallback_on_error "中級者" "熱血" 5 "timeout" (by decide)⟩

/-- C10: `create_challenge_message` always returns a challenge string —
when any internal step of its pipeline raises, the result is the fixed
static message, independent of the user's level and tone; when the
pipeline succeeds, the composed challenge is returned as-is. -/
theorem create_challenge_message_total
    (settingsR : Except String UserSettings) (streakR : Except String ℕ)
    (genR : String → String → ℕ → Except String String)
    (incrR : String → Except String Unit) (level : String) :
    (∀ e, challenge_pipeline settingsR streakR genR incrR level = .error e →
      create_challenge_message settingsR streakR genR incrR level =
        static_fallback_message) ∧
    (∀ c, challenge_pipeline settingsR streakR genR incrR level = .ok c →
      create_challenge_message settingsR streakR genR incrR level = c) := by
  constructor <;> intro x hx <;> simp [create_challenge_message, hx]

/-- Witness for C10: a failing streak-update step yields the fixed static
message. -/
theorem create_challenge_message_total_witness :
    challenge_pipeline (.ok ⟨"初心者", "優しい"⟩) (.error "db down")
      (fun _ _ _ => .ok "今日のお題：テスト") (fun _ => .ok ()) "初心者" =
      .error "db down" ∧
    create_challenge_message (.ok ⟨"初心者", "優しい"⟩) (.error "db down")
      (fun _ _ _ => .ok "今日のお題：テスト") (fun _ => .ok ()) "初心者" =
      static_fallback_message :=
  ⟨rfl,
   (create_challenge_message_total (.ok ⟨"初心者", "優しい"⟩) (.error "db down")
      (fun _ _ _ => .ok "今日のお題：テスト") (fun _ => .ok ()) "初心者").1
      "db down" rfl⟩

/-- Starting a day with the counter already at `k` and the stored date
equal to today, the `i`-th of `n` on-demand requests is served exactly
when `k + i < 3`. -/
theorem run_requests_counting (today : String) :
    ∀ (n k : ℕ),
      (run_requests ⟨k, some today⟩ today n).2 =
        (List.range n).map
          (fun i => if k + i < 3 then ImmediateReply.challenge else .denial) := by
  intro n
  induction n with
  | zero => intro k; rfl
  | succ m ih =>
      intro k
      rw [List.range_succ_eq_map, List.map_cons, List.map_map]
      by_cases hk : 3 ≤ k
      · have hstep : immediate_step ⟨k, some today⟩ today =
            (⟨k, some today⟩, .denial) := by
          simp [immediate_step, hk]
        show (immediate_step ⟨k, some today⟩ today).2 ::
            (run_requests (immediate_step ⟨k, some today⟩ today).1 today m).2 = _
        rw [hstep]
        simp only [ih k]
        have hhead : (if k + 0 < 3 then ImmediateReply.challenge else .denial) =
            .denial := by
          rw [if_neg]; omega
        rw [hhead]
        refine congrArg _ (List.map_congr_left ?_)
        intro i _
        simp only [Function.comp]
        have hc1 : ¬ (k + i < 3) := by omega
        have hc2 : ¬ (k + (i + 1) < 3) := by omega
        rw [if_neg hc1, if_neg hc2]
      · have hstep : immediate_step ⟨k, some today⟩ today =
            (⟨k + 1, some today⟩, .challenge) := by
          simp [immediate_step, hk]
        show (immediate_step ⟨k, some today⟩ today).2 ::
            (run_requests (immediate_step ⟨k, some today⟩ today).1 today m).2 = _
        rw [hstep]
        simp only [ih (k + 1)]
        have hhead : (if k + 0 < 3 then ImmediateReply.challenge else .denial) =
            .challenge := by
          rw [if_pos]; omega
        rw [hhead]
        refine congrArg _ (List.map_congr_left ?_)
        intro i _
        simp only [Function.comp]
        have hc : (k + 1 + i) = (k + (i + 1)) := by omega
        rw [hc]

/-- C6: starting a calendar day fresh (the stored request date differs
from today, or the stored count is zero), a sequence of on-demand
requests on that day serves the first three and answers every later one
with the denial reply; and whenever the stored date differs from today,
one request behaves exactly as if the stored count were zero, whatever
its stored value. -/
theorem daily_cap_spec :
    (∀ (s : ImmediateState) (today : String) (n : ℕ),
      (s.date ≠ some today ∨ s.count = 0) →
      (run_requests s today n).2 =
        (List.range n).map
          (fun i => if i < 3 then ImmediateReply.challenge else .denial)) ∧
    (∀ (s : ImmediateState) (today : String), s.date ≠ some today →
      immediate_step s today = immediate_step ⟨0, s.date⟩ today) := by
  constructor
  · intro s today n h
    rcases h with h | h
    · cases n with
      | zero => rfl
      | succ m =>
          have hstep : immediate_step s today = (⟨1, some today⟩, .challenge) := by
            simp [immediate_step, h]
          rw [List.range_succ_eq_map, List.map_cons, List.map_map]
          show (immediate_step s today).2 ::
              (run_requests (immediate_step s today).1 today m).2 = _
          rw [hstep]
          simp only [run_requests_counting today m 1]
          have hhead : (if (0 : ℕ) < 3 then ImmediateReply.challenge else .denial) =
              .challenge := by
            rw [if_pos]; omega
          rw [hhead]
          refine congrArg _ (List.map_congr_left ?_)
          intro i _
          simp only [Function.comp]
          have hc : (1 + i) = (i + 1) := by omega
          rw [hc]
    · have hs : s = ⟨0, s.date⟩ := by
        cases s
        simp_all
      by_cases hd : s.date = some today
      · rw [hs, hd, run_requests_counting today n 0]
        refine List.map_congr_left ?_
        intro i _
        have hc : (0 + i) = i := by omega
        rw [hc]
      · cases n with
        | zero => rfl
        | succ m =>
            have hstep : immediate_step s today = (⟨1, some today⟩, .challenge) := by
              simp [immediate_step, hd]
            rw [List.range_succ_eq_map, List.map_cons, List.map_map]
            show (immediate_step s today).2 ::
                (run_requests (immediate_step s today).1 today m).2 = _
            rw [hstep]
            simp only [run_requests_counting today m 1]
            have hhead : (if (0 : ℕ) < 3 then ImmediateReply.challenge else .denial) =
                .challenge := by
              rw [if_pos]; omega
            rw [hhead]
            refine congrArg _ (List.map_congr_left ?_)
            intro i _
            simp only [Function.comp]
            have hc : (1 + i) = (i + 1) := by omega
            rw [hc]
  · intro s today h
    simp [immediate_step, h]

/-- Witness for C6: a stale row with count 5 from the previous day gets
exactly three challenges and two denials out of five requests today. -/
theorem daily_cap_spec_witness :
    ((ImmediateState.mk 5 (some "2025-01-01")).date ≠ some "2025-01-02" ∨
      (ImmediateState.mk 5 (some "2025-01-01")).count = 0) ∧
    (run_requests ⟨5, some "2025-01-01"⟩ "2025-01-02" 5).2 =
      [ImmediateReply.challenge, .challenge, .challenge, .denial, .denial] := by
  refine ⟨Or.inl (by decide), ?_⟩
  have h := daily_cap_spec.1 ⟨5, some "2025-01-01"⟩ "2025-01-02" 5
    (Or.inl (by decide))
  rw [h]
  decide

/-- C8: every combo the validator accepts contains at most one
Exclusive-category move, and no Exclusive-category move anywhere but the
last position. -/
theorem isLegalCombo_exclusive_placement (t : Tier) (seq : List MoveCategory)
    (h : isLegalCombo t seq = true) :
    seq.count MoveCategory.exclusive ≤ 1 ∧
    ∀ (i : ℕ) (hi : i < seq.length), i + 1 < seq.length →
      seq.get ⟨i, hi⟩ ≠ MoveCategory.exclusive := by
  unfold isLegalCombo at h
  simp only [Bool.and_eq_true, decide_eq_true_eq, Bool.not_eq_true'] at h
  obtain ⟨⟨⟨⟨hlen, hcount⟩, hlast⟩, hopen⟩, hspec⟩ := h
  refine ⟨hcount, ?_⟩
  intro i hi hsucc he
  have hi' : i < seq.dropLast.length := by
    rw [List.length_dropLast]
    omega
  have hmem : seq.get ⟨i, hi⟩ ∈ seq.dropLast := by
    have hg : seq.dropLast.get ⟨i, hi'⟩ = seq.get ⟨i, hi⟩ := by
      exact List.getElem_dropLast seq i hi'
    rw [← hg]
    exact List.get_mem _ _ _
  have hx : seq.dropLast.any (· == MoveCategory.exclusive) = true :=
    List.any_eq_true.mpr ⟨seq.get ⟨i, hi⟩, hmem, by simp only [beq_iff_eq]; exact he⟩
  rw [hlast] at hx
  exact Bool.false_ne_true hx

/-- Witness for C8: the advanced-tier combo basic–basic–exclusive is
accepted and contains exactly one Exclusive-category move. -/
theorem isLegalCombo_exclusive_placement_witness :
    isLegalCombo Tier.advanced
      [MoveCategory.basic, MoveCategory.basic, MoveCategory.exclusive] = true ∧
    ([MoveCategory.basic, MoveCategory.basic, MoveCategory.exclusive] :
      List MoveCategory).count MoveCategory.exclusive ≤ 1 :=
  ⟨by decide,
   (isLegalCombo_exclusive_placement Tier.advanced
      [MoveCategory.basic, MoveCategory.basic, MoveCategory.exclusive]
      (by decide)).1⟩

/-- C9 counterexample: an unrecognized tone is not indistinguishable from
優しい — the raw tone string is interpolated verbatim into the generation
prompt (lines 361 and 364), so the request issued to the text-generation
collaborator, and with it the generated challenge the user sees, can
differ from the 優しい one.  Here the prompt built for the unknown tone
「ツンデレ」 differs from the prompt built for 優しい. -/
theorem unknown_tone_prompt_differs :
    system_prompt "ツンデレ" ≠ system_prompt "優しい" := by
  intro h
  have hl : (system_prompt "ツンデレ").length = (system_prompt "優しい").length :=
    congrArg String.length h
  rw [show system_prompt "ツンデレ" = system_prompt "ツンデレ" from rfl] at hl
  simp only [system_prompt, String.length_append] at hl
  have ht : ("ツンデレ" : String).length = 4 := by decide
  have hy : ("優しい" : String).length = 3 := by decide
  have hst : (personality_style "ツンデレ") = personality_style "優しい" := by decide
  rw [ht, hy, hst] at hl
  omega

/-- C9 amended: for every tone string outside the five known tones, every
*static* personality-keyed output equals the 優しい one — the prompt style
lookup, the generation-failure fallback for every level, and the success
and difficulty feedback replies — while the tone string itself is still
interpolated verbatim into the generation prompt, so the request sent to
the text-generation collaborator differs from the 優しい one. -/
theorem unknown_tone_static_gentle (t : String) (h : t ∉ known_tones) :
    personality_style t = personality_style "優しい" ∧
    (∀ level, fallback_by_personality t level =
      fallback_by_personality "優しい" level) ∧
    praise_by_personality t = praise_by_personality "優しい" ∧
    encouragement_by_personality t = encouragement_by_personality "優しい" := by
  simp only [known_tones, List.mem_cons, List.not_mem_nil, or_false, not_or] at h
  obtain ⟨h1, h2, h3, h4, h5⟩ := h
  refine ⟨?_, ?_, ?_, ?_⟩
  · simp [personality_style, h1, h2, h3, h4, h5]
  · intro level
    simp [fallback_by_personality, h1, h3, h4, h5]
  · simp [praise_by_personality, h1, h2, h3, h4, h5]
  · simp [encouragement_by_personality, h1, h2, h3, h4, h5]

/-- Witness for the amended C9 at the unknown tone 「ツンデレ」. -/
theorem unknown_tone_static_gentle_witness :
    "ツンデレ" ∉ known_tones ∧
    praise_by_personality "ツンデレ" = praise_by_personality "優しい" :=
  ⟨by decide, (unknown_tone_static_gentle "ツンデレ" (by decide)).2.2.1⟩

end Jumpropebot
